import Mathlib

/-!
# Verification of the Spotify widget service (`src/api/spotify.py`)

A shallow embedding of the glue logic of the widget service: the token
cache (`cached_token` / `refreshToken`), the track-status fetchers
(`nowPlaying`, `recentlyPlayed`), the renderer (`makeSVG`) and the JSON
endpoints (`now_playing_json`, `recently_played_json`).

Python exceptions are modelled with `Except`; the outcomes of remote HTTP
calls are passed in as explicit parameters; the module-level mutable
`token_cache` dict becomes explicit state passing; `random.randint`
results are passed in as parameters constrained to the range the source
requests. Timestamps (`time.time()`) are modelled as natural numbers.
-/

set_option autoImplicit false

namespace Spotify

/-- Python exceptions that the widget code can raise or catch:
`requests.exceptions.RequestException` (network failure or
`raise_for_status` on an HTTP error status), `KeyError` (missing dict
key), and `IndexError` (list index out of range). -/
inductive PyExc where
  | requestException
  | keyError
  | indexError
  deriving DecidableEq, Repr

/-- The module-level `token_cache` dict:
`{"access_token": None, "expires_at": 0}` initially. `access_token` is
`None` or a string; `expires_at` is a timestamp. -/
structure TokenCache where
  access_token : Option String
  expires_at : Nat
  deriving DecidableEq, Repr

/-- The initial value of `token_cache` in the source. -/
def initialTokenCache : TokenCache := { access_token := none, expires_at := 0 }

/-- Python truthiness of `token_cache["access_token"]`: `None` and the
empty string are falsy, every other string is truthy. -/
def tokenTruthy : Option String → Bool
  | none => false
  | some t => !(t == "")

/-- Outcome of the `POST` to the remote token endpoint inside
`refreshToken`: the request raises a `RequestException` (network error,
or an error status via `raise_for_status`), or it returns a JSON body
that lacks the `access_token` field, or it returns one that has it. -/
inductive RefreshOutcome where
  | reqError
  | okMissingToken
  | okToken (tok : String)
  deriving DecidableEq, Repr

/-- The body of `refreshToken` (the function under the `@cached_token`
decorator): posts to the token endpoint; re-raises a `RequestException`;
raises `KeyError` when the JSON response has no `access_token` field;
otherwise returns the access token. -/
def refreshTokenBody : RefreshOutcome → Except PyExc String
  | .reqError => .error .requestException
  | .okMissingToken => .error .keyError
  | .okToken tok => .ok tok

/-- The `cached_token` decorator. The wrapper returns the cached token
when `token_cache["access_token"]` is truthy and
`token_cache["expires_at"] > time.time()`; otherwise it calls the wrapped
function once, stores the result with `expires_at = time.time() + 3600`,
and returns it. An exception from the wrapped function propagates before
the cache assignments run. The result carries the possibly-raised value,
the cache state after the call, and how many times the wrapped function
was invoked. -/
def cached_token (func : RefreshOutcome → Except PyExc String)
    (now : Nat) (remote : RefreshOutcome) (cache : TokenCache) :
    Except PyExc String × TokenCache × Nat :=
  if tokenTruthy cache.access_token && decide (cache.expires_at > now) then
    (.ok (cache.access_token.getD ""), cache, 0)
  else
    match func remote with
    | .ok access_token =>
        (.ok access_token, { access_token := some access_token, expires_at := now + 3600 }, 1)
    | .error e => (.error e, cache, 1)

/-- `refreshToken` as callers see it: the body wrapped by
`cached_token`. -/
def refreshToken (now : Nat) (remote : RefreshOutcome) (cache : TokenCache) :
    Except PyExc String × TokenCache × Nat :=
  cached_token refreshTokenBody now remote cache

/-- An `external_urls` dict; only the `spotify` key is read. -/
structure ExternalUrls where
  spotify : String
  deriving DecidableEq, Repr

/-- An artist dict: `name` and `external_urls`. Python strings are
modelled as lists of characters where character-level rewriting
matters. -/
structure Artist where
  name : List Char
  external_urls : ExternalUrls
  deriving DecidableEq, Repr

/-- One entry of an album's `images` list; only `url` is read. -/
structure AlbumImage where
  url : String
  deriving DecidableEq, Repr

/-- An album dict; only `images` is read. -/
structure Album where
  images : List AlbumImage
  deriving DecidableEq, Repr

/-- A track object: `name`, `artists`, `album`, `external_urls`. -/
structure Track where
  name : List Char
  artists : List Artist
  album : Album
  external_urls : ExternalUrls
  deriving DecidableEq, Repr

/-- The value of the `item` key of a now-playing response: absent or
JSON `null` (both read as `None` by `data.get("item")`), the literal
string `"None"`, or a track object. -/
inductive ItemField where
  | nullish
  | noneString
  | track (t : Track)
  deriving DecidableEq, Repr

/-- The dict returned by `nowPlaying`: the empty dict `{}` (idle or
error), or a response dict whose `item` key is as described by
`ItemField`. -/
inductive Snapshot where
  | emptyDict
  | dict (item : ItemField)
  deriving DecidableEq, Repr

/-- One entry of the recently-played `items` list; only `track` is
read. -/
structure RecentItem where
  track : Track
  deriving DecidableEq, Repr

/-- The dict returned by `recentlyPlayed`: the empty dict `{}`, or a
non-empty response dict that may or may not carry an `items` key. -/
inductive RecentPlays where
  | emptyDict
  | dict (items : Option (List RecentItem))
  deriving DecidableEq, Repr

/-- Outcome of a `GET` against a track endpoint: a `204 No Content`
status, a success status with a JSON body, or a `RequestException`
(network error, or an error status turned into an exception by
`raise_for_status`). -/
inductive TrackCallOutcome (β : Type) where
  | noContent
  | okJson (body : β)
  | reqError
  deriving DecidableEq, Repr

/-- `recentlyPlayed()`: refreshes the token, then queries the
recently-played endpoint. A `RequestException` raised anywhere in the
`try` block (including inside `refreshToken`) is caught and the empty
dict is returned; any other exception (the `KeyError` that
`refreshToken` raises on a malformed token response) propagates. A
`204` status also yields the empty dict. -/
def recentlyPlayed (now : Nat) (remoteTok : RefreshOutcome) (cache : TokenCache)
    (call : TrackCallOutcome RecentPlays) : Except PyExc RecentPlays × TokenCache :=
  match refreshToken now remoteTok cache with
  | (.error .requestException, cache', _) => (.ok .emptyDict, cache')
  | (.error e, cache', _) => (.error e, cache')
  | (.ok _, cache', _) =>
      match call with
      | .reqError => (.ok .emptyDict, cache')
      | .noContent => (.ok .emptyDict, cache')
      | .okJson body => (.ok body, cache')

/-- `nowPlaying()`: refreshes the token, then queries the
currently-playing endpoint. The `204` check precedes
`raise_for_status` here, but the observable outcomes are the same as
for `recentlyPlayed`: `RequestException` (from the request or from the
token refresh) degrades to the empty dict, `204` yields the empty
dict, and any other exception propagates. -/
def nowPlaying (now : Nat) (remoteTok : RefreshOutcome) (cache : TokenCache)
    (call : TrackCallOutcome Snapshot) : Except PyExc Snapshot × TokenCache :=
  match refreshToken now remoteTok cache with
  | (.error .requestException, cache', _) => (.ok .emptyDict, cache')
  | (.error e, cache', _) => (.error e, cache')
  | (.ok _, cache', _) =>
      match call with
      | .noContent => (.ok .emptyDict, cache')
      | .reqError => (.ok .emptyDict, cache')
      | .okJson body => (.ok body, cache')

/-- A theme's entry in the `THEMES` table. -/
structure ThemeSpec where
  gradient : String
  background : String
  text : String
  accent : String
  deriving DecidableEq, Repr

/-- The `THEMES` dict, keyed by theme name. -/
def THEMES : List (String × ThemeSpec) :=
  [("default",
    { gradient := "linear-gradient(to right, #1DB954, #191414)",
      background := "191414", text := "FFFFFF", accent := "1DB954" }),
   ("dark",
    { gradient := "linear-gradient(to right, #1DB954, #191414)",
      background := "191414", text := "FFFFFF", accent := "1DB954" }),
   ("light",
    { gradient := "linear-gradient(to right, #1ED760, #FFFFFF)",
      background := "FFFFFF", text := "191414", accent := "1ED760" }),
   ("colorful",
    { gradient := "linear-gradient(to right, #B026FF, #FF8A2E, #1DB954, #4062BB)",
      background := "0E1118", text := "FFFFFF", accent := "1DB954" }),
   ("purple",
    { gradient := "linear-gradient(to right, #7B4397, #DC2430)",
      background := "251431", text := "FFFFFF", accent := "DC2430" }),
   ("beach",
    { gradient := "linear-gradient(to right, #00C9FF, #92FE9D)",
      background := "002B40", text := "FFFFFF", accent := "92FE9D" })]

/-- `DEFAULT_THEME = THEMES["default"]`. -/
def DEFAULT_THEME : ThemeSpec :=
  { gradient := "linear-gradient(to right, #1DB954, #191414)",
    background := "191414", text := "FFFFFF", accent := "1DB954" }

/-- `THEMES.get(theme, DEFAULT_THEME)`: a missing or `None` key falls
back to the default theme. -/
def themesGet (theme : Option String) : ThemeSpec :=
  match theme with
  | none => DEFAULT_THEME
  | some name =>
      match THEMES.lookup name with
      | some t => t
      | none => DEFAULT_THEME

/-- Python truthiness of an optional string argument: `None` and the
empty string are falsy. -/
def strFalsy : Option String → Bool
  | none => true
  | some s => s == ""

/-- The `PLACEHOLDER_IMAGE` base64 constant (abbreviated content, the
exact bytes play no role in any property; it is a fixed, non-empty
string). -/
def PLACEHOLDER_IMAGE : String :=
  "iVBORw0KGgoAAAANSUhEUgAAACgAAAAoCAYAAACM/rhtAAAAAXNSR0IArs4c6QAAAARnQU1BAACxjwv8YQUAAAAJcEhZcwAADsMAAA7DAcdvqGQAAADISURBVFhH7dY9CsJAFATgWXt/kHgEK/EICpZ6A2/jRbxBGlN4AU9g5R28gZbe77sYlmUTLFZhhDzIA0lmJRD2vTWCRZKkCb6pqoeUydIrKuqgiBjkRlEj8BRFRxblx8RxsKoavw59sfH4j41Sy7JMdrvdeeyPCeOga3a73fV9o9F4NS56CrPZTCEG/VEQML3QqLhYLM4VYliVRB6GpKxzUBoz8aHQ0Gw2k/1+f21ut1t5n8kDH4uiqEF/FGTgF/Otp/Of+RzU2qD/FWAAVoFLO+Fd7ogAAAAASUVORK5CYII="

/-- One scan step of Python `str.replace` for a non-empty pattern
`o :: os`: at each position, if the pattern is a prefix, emit `new` and
skip past the match; otherwise emit the character and move on. -/
def pyReplaceAux (o : Char) (os new : List Char) : List Char → List Char
  | [] => []
  | c :: rest =>
      if (o :: os).isPrefixOf (c :: rest) then
        new ++ pyReplaceAux o os new ((c :: rest).drop (o :: os).length)
      else
        c :: pyReplaceAux o os new rest
  termination_by s => s.length
  decreasing_by
    · simp only [List.length_drop, List.length_cons]
      omega
    · simp only [List.length_cons]
      omega

/-- Python `str.replace(old, new)` replacing every non-overlapping
occurrence left to right. The source only calls it with the
one-character pattern `"&"`; an empty pattern is never used and is
mapped to the identity here. -/
def pyReplace (s old new : List Char) : List Char :=
  match old with
  | [] => s
  | o :: os => pyReplaceAux o os new s

/-- The ampersand character. -/
def ampChar : Char := Char.ofNat 38

/-- `loadImageB64(url)`: fetch the image and base64-encode its bytes;
on a `RequestException` (network failure or error status) return the
placeholder image instead. `fetch url = some content` models a
successful download whose encoded content is `content`; `none` models
the exception. -/
def loadImageB64 (fetch : String → Option String) (url : String) : String :=
  match fetch url with
  | some content => content
  | none => PLACEHOLDER_IMAGE

/-- `barGen(barCount)`: the per-bar CSS. `anims i` stands for the
`random.randint(1000, 1350)` drawn at iteration `i`; `left` starts at 1
and grows by 4 per bar. -/
def barGen (anims : Nat → Nat) (barCount : Nat) : String :=
  String.join ((List.range barCount).map (fun i =>
    ".bar:nth-child(" ++ toString (i + 1) ++ ")  \x7b left: " ++ toString (1 + 4 * i) ++
      "px; animation-duration: " ++ toString (anims (i + 1)) ++ "ms; \x7d"))

/-- The keyword arguments handed to `render_template("spotify.html.j2", **dataDict)`. -/
structure CardData where
  contentBar : String
  barCSS : String
  artistName : List Char
  songName : List Char
  songURI : String
  artistURI : String
  image : String
  status : String
  background_color : String
  border_color : String
  barPalette : String
  songPalette : String
  theme : Option String
  deriving DecidableEq, Repr

/-- What `makeSVG` returns: the rendered error template
(`error.html.j2` with its `error` string) or the rendered card template
with its full context. -/
inductive SVGResult where
  | errorTemplate (error : String)
  | card (d : CardData)
  deriving DecidableEq, Repr

/-- The `data == {} or data.get("item") is None or data.get("item") == "None"`
test at the top of `makeSVG`'s `try` block. -/
def svgEmptyCheck : Snapshot → Bool
  | .emptyDict => true
  | .dict .nullish => true
  | .dict .noneString => true
  | .dict (.track _) => false

/-- The `not recentPlays or "items" not in recentPlays or not recentPlays["items"]`
test shared by `makeSVG`, `now_playing_json` and `recently_played_json`. -/
def recentEmptyCheck : RecentPlays → Bool
  | .emptyDict => true
  | .dict none => true
  | .dict (some items) => items.isEmpty

/-- The `items` list of a recently-played response, empty when absent. -/
def recentItems : RecentPlays → List RecentItem
  | .emptyDict => []
  | .dict none => []
  | .dict (some items) => items

/-- The tail of `makeSVG`'s `try` block once an `item` and a status
label are in hand: album art (placeholder when `images` is empty,
`IndexError` when `images[1]` is out of range, otherwise
`loadImageB64`), `artists[0]` (`IndexError` when absent), ampersand
escaping, URIs, and the background/border resolution where a falsy
per-call override falls back to the theme background and a falsy
border falls back to the resolved background. -/
def renderItem (contentBar barCSS currentStatus : String) (theme_data : ThemeSpec)
    (theme : Option String) (background_color border_color : Option String)
    (imgFetch : String → Option String) (item : Track) : Except PyExc SVGResult :=
  let imageE : Except PyExc String :=
    if item.album.images.isEmpty then .ok PLACEHOLDER_IMAGE
    else
      match item.album.images.get? 1 with
      | none => .error .indexError
      | some img => .ok (loadImageB64 imgFetch img.url)
  match imageE with
  | .error e => .error e
  | .ok image =>
      let barPalette := theme_data.gradient
      let songPalette := theme_data.gradient
      match item.artists.get? 0 with
      | none => .error .indexError
      | some artist0 =>
          let artistName := pyReplace artist0.name [ampChar] "&amp;".toList
          let songName := pyReplace item.name [ampChar] "&amp;".toList
          let songURI := item.external_urls.spotify
          let artistURI := artist0.external_urls.spotify
          let bg := if strFalsy background_color then theme_data.background
                    else background_color.getD ""
          let bd := if strFalsy border_color then bg else border_color.getD ""
          .ok (.card
            { contentBar := contentBar, barCSS := barCSS,
              artistName := artistName, songName := songName,
              songURI := songURI, artistURI := artistURI,
              image := image, status := currentStatus,
              background_color := bg, border_color := bd,
              barPalette := barPalette, songPalette := songPalette,
              theme := theme })

/-- The whole `try` block of `makeSVG` as an `Except` computation: the
empty-snapshot branch calls `recentlyPlayed` (its outcome is the
`recentFetch` parameter, an exception from it propagates into this
`try`), returns the `"No recent songs found"` error template when the
fallback is empty, and otherwise renders the track at the drawn index
(`itemIndex`, standing for `random.randint(0, len(items) - 1)`, an
out-of-range value being an `IndexError`); the non-empty branch renders
`data["item"]` with the equalizer bars kept. -/
def makeSVGBody (data : Snapshot) (theme : Option String)
    (background_color border_color : Option String)
    (recentFetch : Except PyExc RecentPlays) (itemIndex : Nat)
    (imgFetch : String → Option String)
    (contentBar barCSS : String) (theme_data : ThemeSpec) : Except PyExc SVGResult :=
  if svgEmptyCheck data then
    match recentFetch with
    | .error e => .error e
    | .ok recentPlays =>
        if recentEmptyCheck recentPlays then
          .ok (.errorTemplate "No recent songs found")
        else
          match (recentItems recentPlays).get? itemIndex with
          | none => .error .indexError
          | some entry =>
              renderItem "" barCSS "Was playing:" theme_data theme
                background_color border_color imgFetch entry.track
  else
    match data with
    | .dict (.track t) =>
        renderItem contentBar barCSS "Vibing to:" theme_data theme
          background_color border_color imgFetch t
    | _ => .error .keyError

/-- `"".join(["<div class='bar'></div>" for i in range(barCount)])`. -/
def contentBarDivs (barCount : Nat) : String :=
  String.join (List.replicate barCount "<div class=\x27bar\x27></div>")

/-- `makeSVG(data, theme, background_color, border_color)`: builds the
bar markup and CSS, resolves the theme via `THEMES.get`, runs the `try`
block, and converts any exception into the generic
`"Unable to generate Spotify card"` error template. -/
def makeSVG (data : Snapshot) (theme : Option String)
    (background_color border_color : Option String)
    (recentFetch : Except PyExc RecentPlays) (itemIndex : Nat)
    (imgFetch : String → Option String) (anims : Nat → Nat) : SVGResult :=
  let barCount := 84
  let contentBar := contentBarDivs barCount
  let barCSS := barGen anims barCount
  let theme_data := themesGet theme
  match makeSVGBody data theme background_color border_color recentFetch itemIndex
      imgFetch contentBar barCSS theme_data with
  | .ok r => r
  | .error _ => .errorTemplate "Unable to generate Spotify card"

/-- The `str(e)` text interpolated into the 500 error body. -/
def pyExcMessage : PyExc → String
  | .requestException => "RequestException"
  | .keyError => "KeyError"
  | .indexError => "IndexError"

/-- The response of `GET /now-playing`: `jsonify(data)` with status
200, the constructed `{"is_playing": False, "item": item}` with status
200, or a `{"error": ...}` body with the given status (404 or 500). -/
inductive NPResponse where
  | okData (data : Snapshot)
  | okRecent (is_playing : Bool) (item : Track)
  | errorJson (error : String) (status : Nat)
  deriving DecidableEq, Repr

/-- HTTP status of a `/now-playing` response (Flask defaults to 200). -/
def NPResponse.status : NPResponse → Nat
  | .okData _ => 200
  | .okRecent _ _ => 200
  | .errorJson _ s => s

/-- The `data == {} or data.get("item") is None` test in
`now_playing_json` (unlike `makeSVG`, the string `"None"` is not
treated as empty here). -/
def npEmptyCheck : Snapshot → Bool
  | .emptyDict => true
  | .dict .nullish => true
  | .dict .noneString => false
  | .dict (.track _) => false

/-- The `/now-playing` handler `now_playing_json`: an exception
escaping `nowPlaying` or `recentlyPlayed` is caught by the handler's
`except Exception` and becomes a 500 error body; an empty or item-less
snapshot falls back to the recent list, answering 404
`"No recent songs found"` when that is empty or absent and otherwise
200 with `is_playing: False` and the track of the entry at the drawn
index; a non-empty snapshot is returned as-is with status 200. -/
def now_playing_json (npFetch : Except PyExc Snapshot)
    (recentFetch : Except PyExc RecentPlays) (itemIndex : Nat) : NPResponse :=
  match npFetch with
  | .error e => .errorJson (pyExcMessage e) 500
  | .ok data =>
      if npEmptyCheck data then
        match recentFetch with
        | .error e => .errorJson (pyExcMessage e) 500
        | .ok recent =>
            if recentEmptyCheck recent then .errorJson "No recent songs found" 404
            else
              match (recentItems recent).get? itemIndex with
              | none => .errorJson (pyExcMessage .indexError) 500
              | some entry => .okRecent false entry.track
      else .okData data

/-- The response of `GET /recent`: `jsonify(data)` with status 200 or
a `{"error": ...}` body with the given status. -/
inductive RecentResponse where
  | okData (data : RecentPlays)
  | errorJson (error : String) (status : Nat)
  deriving DecidableEq, Repr

/-- HTTP status of a `/recent` response. -/
def RecentResponse.status : RecentResponse → Nat
  | .okData _ => 200
  | .errorJson _ s => s

/-- The `/recent` handler `recently_played_json`: an exception becomes
a 500 error body; an empty, item-less or empty-itemed response answers
404 `"No recent songs found"`; otherwise the data is returned with
status 200. -/
def recently_played_json (recentFetch : Except PyExc RecentPlays) : RecentResponse :=
  match recentFetch with
  | .error e => .errorJson (pyExcMessage e) 500
  | .ok data =>
      if recentEmptyCheck data then .errorJson "No recent songs found" 404
      else .okData data

/-! ## Observation helpers and spec-side definitions -/

/-- Whether `makeSVG` produced the card template (as opposed to the
error template). -/
def SVGResult.isCard : SVGResult → Bool
  | .card _ => true
  | .errorTemplate _ => false

/-- The `status` entry of the rendered card context, if a card was
produced. -/
def SVGResult.statusOf : SVGResult → Option String
  | .card d => some d.status
  | .errorTemplate _ => none

/-- The `artistName` entry of the rendered card context. -/
def SVGResult.artistNameOf : SVGResult → Option (List Char)
  | .card d => some d.artistName
  | .errorTemplate _ => none

/-- The `songName` entry of the rendered card context. -/
def SVGResult.songNameOf : SVGResult → Option (List Char)
  | .card d => some d.songName
  | .errorTemplate _ => none

/-- The `songURI` entry of the rendered card context. -/
def SVGResult.songURIOf : SVGResult → Option String
  | .card d => some d.songURI
  | .errorTemplate _ => none

/-- The `artistURI` entry of the rendered card context. -/
def SVGResult.artistURIOf : SVGResult → Option String
  | .card d => some d.artistURI
  | .errorTemplate _ => none

/-- The `image` entry of the rendered card context. -/
def SVGResult.imageOf : SVGResult → Option String
  | .card d => some d.image
  | .errorTemplate _ => none

/-- The `background_color` entry of the rendered card context. -/
def SVGResult.bgOf : SVGResult → Option String
  | .card d => some d.background_color
  | .errorTemplate _ => none

/-- The `border_color` entry of the rendered card context. -/
def SVGResult.bdOf : SVGResult → Option String
  | .card d => some d.border_color
  | .errorTemplate _ => none

/-- Spec-side description of the escaping: every ampersand character is
replaced by the five-character sequence `&amp;`, and every other
character is kept as it is. `makeSVG`'s use of `str.replace` is proved
equal to this. -/
def escapeAmpSpec (s : List Char) : List Char :=
  (s.map (fun c => if c = ampChar then "&amp;".toList else [c])).flatten

/-- A sample artist whose name contains an ampersand. -/
def sampleArtist : Artist :=
  { name := "Art & Co".toList, external_urls := { spotify := "artist-link" } }

/-- A sample track with no album art. -/
def sampleTrack : Track :=
  { name := "Song & Dance".toList, artists := [sampleArtist],
    album := { images := [] }, external_urls := { spotify := "song-link" } }

/-- A sample album-art entry. -/
def sampleImage : AlbumImage := { url := "img-url" }

/-- A sample track with two album-art entries. -/
def sampleTrack2 : Track :=
  { name := "Tune".toList, artists := [sampleArtist],
    album := { images := [sampleImage, sampleImage] },
    external_urls := { spotify := "song2-link" } }

/-- An image fetcher whose every download fails. -/
def noFetch : String → Option String := fun _ => none

/-- An image fetcher that always succeeds with fixed content. -/
def okFetch : String → Option String := fun _ => some "imgdata"

/-- A fixed stand-in for the animation-duration draws. -/
def constAnims : Nat → Nat := fun _ => 1000

/-! ## Helper lemmas -/

theorem recentEmptyCheck_false_of_get? (rp : RecentPlays) (idx : Nat) (entry : RecentItem)
    (h : (recentItems rp)[idx]? = some entry) : recentEmptyCheck rp = false := by
  cases rp with
  | emptyDict => simp [recentItems] at h
  | dict items =>
      cases items with
      | none => simp [recentItems] at h
      | some l =>
          cases l with
          | nil => simp [recentItems] at h
          | cons a as => simp [recentEmptyCheck]

theorem isCard_exists {r : SVGResult} (h : r.isCard = true) : ∃ d, r = .card d := by
  cases r with
  | errorTemplate e => simp [SVGResult.isCard] at h
  | card d => exact ⟨d, rfl⟩

theorem renderItem_eq_noImages {cb css st : String} {td : ThemeSpec} {th bg bd : Option String}
    {f : String → Option String} {item : Track} {a0 : Artist}
    (ha : item.artists[0]? = some a0) (hemp : item.album.images = []) :
    renderItem cb css st td th bg bd f item = .ok (.card
      { contentBar := cb, barCSS := css,
        artistName := pyReplace a0.name [ampChar] "&amp;".toList,
        songName := pyReplace item.name [ampChar] "&amp;".toList,
        songURI := item.external_urls.spotify,
        artistURI := a0.external_urls.spotify,
        image := PLACEHOLDER_IMAGE, status := st,
        background_color := if strFalsy bg then td.background else bg.getD "",
        border_color := if strFalsy bd then (if strFalsy bg then td.background else bg.getD "")
          else bd.getD "",
        barPalette := td.gradient, songPalette := td.gradient, theme := th }) := by
  simp [renderItem, hemp, ha]

theorem renderItem_eq_images {cb css st : String} {td : ThemeSpec} {th bg bd : Option String}
    {f : String → Option String} {item : Track} {a0 : Artist} {img : AlbumImage}
    (ha : item.artists[0]? = some a0) (himg : item.album.images[1]? = some img) :
    renderItem cb css st td th bg bd f item = .ok (.card
      { contentBar := cb, barCSS := css,
        artistName := pyReplace a0.name [ampChar] "&amp;".toList,
        songName := pyReplace item.name [ampChar] "&amp;".toList,
        songURI := item.external_urls.spotify,
        artistURI := a0.external_urls.spotify,
        image := loadImageB64 f img.url, status := st,
        background_color := if strFalsy bg then td.background else bg.getD "",
        border_color := if strFalsy bd then (if strFalsy bg then td.background else bg.getD "")
          else bd.getD "",
        barPalette := td.gradient, songPalette := td.gradient, theme := th }) := by
  have hne : item.album.images.isEmpty = false := by
    cases hi : item.album.images with
    | nil => rw [hi] at himg; simp at himg
    | cons a as => simp
  simp [renderItem, hne, ha, himg]

theorem makeSVG_empty_eval {data : Snapshot} {theme bg bd : Option String} {rp : RecentPlays}
    {idx : Nat} {f : String → Option String} {anims : Nat → Nat} {entry : RecentItem}
    (hdata : svgEmptyCheck data = true)
    (hentry : (recentItems rp)[idx]? = some entry) :
    makeSVG data theme bg bd (.ok rp) idx f anims =
      (match renderItem "" (barGen anims 84) "Was playing:" (themesGet theme) theme bg bd f
          entry.track with
       | .ok r => r
       | .error _ => .errorTemplate "Unable to generate Spotify card") := by
  have hne := recentEmptyCheck_false_of_get? rp idx entry hentry
  simp only [makeSVG, makeSVGBody, hdata, if_true, hne, Bool.false_eq_true, if_false,
    List.get?_eq_getElem?, hentry]

theorem makeSVG_track_eval {theme bg bd : Option String} {rf : Except PyExc RecentPlays}
    {idx : Nat} {f : String → Option String} {anims : Nat → Nat} {t : Track} :
    makeSVG (.dict (.track t)) theme bg bd rf idx f anims =
      (match renderItem (contentBarDivs 84) (barGen anims 84) "Vibing to:" (themesGet theme)
          theme bg bd f t with
       | .ok r => r
       | .error _ => .errorTemplate "Unable to generate Spotify card") := by
  simp only [makeSVG, makeSVGBody, svgEmptyCheck, Bool.false_eq_true, if_false]

theorem makeSVGBody_card_inv {data : Snapshot} {theme bg bd : Option String}
    {rf : Except PyExc RecentPlays} {idx : Nat} {f : String → Option String}
    {cb css : String} {td : ThemeSpec} {d : CardData}
    (h : makeSVGBody data theme bg bd rf idx f cb css td = .ok (.card d)) :
    ∃ cb2 st item, renderItem cb2 css st td theme bg bd f item = .ok (.card d) := by
  unfold makeSVGBody at h
  split at h
  · match rf with
    | .error e => simp at h
    | .ok rp =>
        simp only at h
        split at h
        · simp at h
        · split at h
          · simp at h
          · exact ⟨_, _, _, h⟩
  · split at h
    · exact ⟨_, _, _, h⟩
    · simp at h

theorem makeSVG_card_inv {data : Snapshot} {theme bg bd : Option String}
    {rf : Except PyExc RecentPlays} {idx : Nat} {f : String → Option String}
    {anims : Nat → Nat} {d : CardData}
    (h : makeSVG data theme bg bd rf idx f anims = .card d) :
    ∃ cb st item,
      renderItem cb (barGen anims 84) st (themesGet theme) theme bg bd f item =
        .ok (.card d) := by
  simp only [makeSVG] at h
  split at h
  · next r heq =>
      subst h
      exact makeSVGBody_card_inv heq
  · simp at h

theorem renderItem_card_fields {cb css st : String} {td : ThemeSpec} {th bg bd : Option String}
    {f : String → Option String} {item : Track} {d : CardData}
    (h : renderItem cb css st td th bg bd f item = .ok (.card d)) :
    d.status = st ∧
    d.background_color = (if strFalsy bg then td.background else bg.getD "") ∧
    d.border_color = (if strFalsy bd then (if strFalsy bg then td.background else bg.getD "")
      else bd.getD "") ∧
    d.songName = pyReplace item.name [ampChar] "&amp;".toList ∧
    d.songURI = item.external_urls.spotify ∧
    ∃ a0, item.artists[0]? = some a0 ∧
      d.artistName = pyReplace a0.name [ampChar] "&amp;".toList ∧
      d.artistURI = a0.external_urls.spotify := by
  unfold renderItem at h
  split at h
  · split at h
    · simp at h
    · next a0 ha =>
        simp only [List.get?_eq_getElem?] at ha
        simp only [Except.ok.injEq, SVGResult.card.injEq] at h
        subst h
        exact ⟨rfl, rfl, rfl, rfl, rfl, a0, ha, rfl, rfl⟩
  · split at h
    · simp at h
    · next img himg =>
        split at h
        · simp at h
        · next a0 ha =>
            simp only [List.get?_eq_getElem?] at ha
            simp only [Except.ok.injEq, SVGResult.card.injEq] at h
            subst h
            exact ⟨rfl, rfl, rfl, rfl, rfl, a0, ha, rfl, rfl⟩

theorem pyReplace_amp_eq_escapeAmpSpec (s : List Char) :
    pyReplace s [ampChar] "&amp;".toList = escapeAmpSpec s := by
  induction s with
  | nil => simp [pyReplace, pyReplaceAux, escapeAmpSpec]
  | cons c rest ih =>
      by_cases hc : c = ampChar
      · subst hc
        simp only [pyReplace, pyReplaceAux, List.isPrefixOf, List.length_cons,
          List.length_nil, List.drop_succ_cons, List.drop_zero, escapeAmpSpec,
          List.map_cons, List.flatten_cons, if_pos rfl] at ih ⊢
        simpa using ih
      · have hb : (ampChar == c) = false := by
          simp only [beq_eq_false_iff_ne, ne_eq]
          exact fun hcc => hc hcc.symm
        simp only [pyReplace, pyReplaceAux, List.isPrefixOf, hb, Bool.false_and,
          Bool.false_eq_true, if_false, escapeAmpSpec, List.map_cons, List.flatten_cons,
          if_neg hc] at ih ⊢
        simpa using ih

/-! ## Theorems -/

/-- **C1.** The token-fetch operation (`refreshToken` wrapped by
`cached_token`): when a cached access token is present and the current
time is strictly below the stored `expires_at`, the cached token is
returned, the cache is untouched, and the remote token endpoint is not
called (zero invocations of the wrapped function); otherwise the remote
endpoint is called exactly once and, when it yields a token, that token
is returned and stored with `expires_at` set to the call time plus 3600
seconds. -/
theorem C1_cached_token_behavior (now : Nat) (remote : RefreshOutcome) (cache : TokenCache) :
    (tokenTruthy cache.access_token = true → now < cache.expires_at →
      refreshToken now remote cache = (.ok (cache.access_token.getD ""), cache, 0)) ∧
    (tokenTruthy cache.access_token = false ∨ cache.expires_at ≤ now →
      (refreshToken now remote cache).2.2 = 1 ∧
      ∀ tok, remote = .okToken tok →
        refreshToken now remote cache =
          (.ok tok, { access_token := some tok, expires_at := now + 3600 }, 1)) := by
  constructor
  · intro ht hlt
    simp [refreshToken, cached_token, ht, hlt]
  · intro hmiss
    have hcond : (tokenTruthy cache.access_token && decide (cache.expires_at > now)) = false := by
      rcases hmiss with h | h
      · simp [h]
      · simp [Nat.not_lt.mpr h]
    constructor
    · simp only [refreshToken, cached_token, hcond, Bool.false_eq_true, if_false]
      cases refreshTokenBody remote <;> rfl
    · intro tok hr
      subst hr
      simp [refreshToken, cached_token, hcond, refreshTokenBody]

/-- Witness for C1: with cached token `"old"` valid until time 10, a
call at time 5 serves the cache without refreshing, and a call at
time 10 refreshes, stores the new token with expiry 3610, and returns
it. -/
theorem C1_cached_token_behavior_witness :
    refreshToken 5 (.okToken "t") { access_token := some "old", expires_at := 10 } =
        (.ok "old", { access_token := some "old", expires_at := 10 }, 0) ∧
    refreshToken 10 (.okToken "t") { access_token := some "old", expires_at := 10 } =
        (.ok "t", { access_token := some "t", expires_at := 3610 }, 1) := by
  constructor
  · exact (C1_cached_token_behavior 5 (.okToken "t")
      { access_token := some "old", expires_at := 10 }).1 (by decide) (by decide)
  · exact ((C1_cached_token_behavior 10 (.okToken "t")
      { access_token := some "old", expires_at := 10 }).2 (Or.inr (by decide))).2 "t" rfl

/-- **C10.** When the underlying refresh fails (the remote call raises,
or the remote response lacks an `access_token` field), the token cache
keeps exactly the `access_token` and `expires_at` it had before the
call. -/
theorem C10_cache_unchanged_on_error (now : Nat) (remote : RefreshOutcome)
    (cache : TokenCache) (e : PyExc) (h : refreshTokenBody remote = .error e) :
    (refreshToken now remote cache).2.1 = cache := by
  simp only [refreshToken, cached_token]
  split
  · rfl
  · rw [h]

/-- Witness for C10: a failing remote call at time 0 leaves the initial
cache exactly as it was. -/
theorem C10_cache_unchanged_on_error_witness :
    (refreshToken 0 .reqError initialTokenCache).2.1 = initialTokenCache :=
  C10_cache_unchanged_on_error 0 .reqError initialTokenCache .requestException rfl

/-- **C2 counterexample.** The claim says every failure arising from
the token refresh makes the fetchers return the empty dict. But when
the token endpoint answers successfully with a body lacking
`access_token`, `refreshToken` raises `KeyError`, which the fetchers'
`except requests.exceptions.RequestException` clause does not catch:
both fetchers propagate the exception instead of returning `{}`. -/
theorem C2_fetch_counterexample :
    (nowPlaying 0 .okMissingToken initialTokenCache .noContent).1 = .error .keyError ∧
    (recentlyPlayed 0 .okMissingToken initialTokenCache .noContent).1 = .error .keyError :=
  ⟨rfl, rfl⟩

/-- **C2 amended.** Every `RequestException`-class failure — a network
error or HTTP error status of the track call, or the same arising inside
the token refresh — makes `nowPlaying` and `recentlyPlayed` return the
empty dict instead of propagating; but a `KeyError` from the token
refresh (token endpoint response without `access_token`) propagates out
of both fetchers. -/
theorem C2_fetch_error_handling (now : Nat) (remoteTok : RefreshOutcome) (cache : TokenCache)
    (callN : TrackCallOutcome Snapshot) (callR : TrackCallOutcome RecentPlays) :
    ((refreshToken now remoteTok cache).1 = .error .requestException →
      (nowPlaying now remoteTok cache callN).1 = .ok .emptyDict ∧
      (recentlyPlayed now remoteTok cache callR).1 = .ok .emptyDict) ∧
    ((∃ tok, (refreshToken now remoteTok cache).1 = .ok tok) → callN = .reqError →
      (nowPlaying now remoteTok cache callN).1 = .ok .emptyDict) ∧
    ((∃ tok, (refreshToken now remoteTok cache).1 = .ok tok) → callR = .reqError →
      (recentlyPlayed now remoteTok cache callR).1 = .ok .emptyDict) ∧
    ((refreshToken now remoteTok cache).1 = .error .keyError →
      (nowPlaying now remoteTok cache callN).1 = .error .keyError ∧
      (recentlyPlayed now remoteTok cache callR).1 = .error .keyError) := by
  rcases hrt : refreshToken now remoteTok cache with ⟨res, cache', n⟩
  refine ⟨?_, ?_, ?_, ?_⟩
  · intro h
    simp only at h
    subst h
    constructor <;> simp [nowPlaying, recentlyPlayed, hrt]
  · rintro ⟨tok, htok⟩ hcall
    simp only at htok
    subst htok
    subst hcall
    simp [nowPlaying, hrt]
  · rintro ⟨tok, htok⟩ hcall
    simp only at htok
    subst htok
    subst hcall
    simp [recentlyPlayed, hrt]
  · intro h
    simp only at h
    subst h
    constructor <;> simp [nowPlaying, recentlyPlayed, hrt]

/-- Witness for C2 amended: a network failure of the token refresh at
time 0 with the initial cache makes both fetchers return the empty
dict. -/
theorem C2_fetch_error_handling_witness :
    (nowPlaying 0 .reqError initialTokenCache .noContent).1 = .ok .emptyDict ∧
    (recentlyPlayed 0 .reqError initialTokenCache .noContent).1 = .ok .emptyDict :=
  (C2_fetch_error_handling 0 .reqError initialTokenCache .noContent .noContent).1 rfl

/-- **C3 counterexample.** The claim states the fallback card's status
text is `"Was playing"`, but the source sets
`currentStatus = "Was playing:"` (with a trailing colon): at an empty
snapshot with one recent item, the rendered card's status is
`"Was playing:"`, which differs from the claimed text. -/
theorem C3_status_counterexample :
    (makeSVG .emptyDict none none none (.ok (.dict (some [{ track := sampleTrack }]))) 0
      noFetch constAnims).statusOf = some "Was playing:" ∧
    some ("Was playing:" : String) ≠ some ("Was playing" : String) :=
  ⟨rfl, by decide⟩

/-- **C3 amended.** With an empty snapshot, for every index into the
non-empty recent-tracks fallback (each a possible draw of
`random.randint(0, N-1)`), `makeSVG` renders exactly the track of the
entry at that index — its name, song link and artist link appear in the
card — labelled with the status text `"Was playing:"` (trailing colon);
for every non-empty snapshot, the current track is rendered with the
status text `"Vibing to:"`. The selected track must be renderable
(it has an artist, and either no album art or an entry at index 1),
otherwise the generic error template is produced instead. -/
theorem C3_render_selection (data : Snapshot) (theme bg bd : Option String)
    (rp : RecentPlays) (idx : Nat) (f : String → Option String) (anims : Nat → Nat) :
    (∀ entry a0, svgEmptyCheck data = true →
      (recentItems rp)[idx]? = some entry →
      entry.track.artists[0]? = some a0 →
      (entry.track.album.images = [] ∨ ∃ img, entry.track.album.images[1]? = some img) →
      (makeSVG data theme bg bd (.ok rp) idx f anims).statusOf = some "Was playing:" ∧
      (makeSVG data theme bg bd (.ok rp) idx f anims).songNameOf =
        some (pyReplace entry.track.name [ampChar] "&amp;".toList) ∧
      (makeSVG data theme bg bd (.ok rp) idx f anims).songURIOf =
        some entry.track.external_urls.spotify ∧
      (makeSVG data theme bg bd (.ok rp) idx f anims).artistURIOf =
        some a0.external_urls.spotify) ∧
    (∀ t a0, data = .dict (.track t) →
      t.artists[0]? = some a0 →
      (t.album.images = [] ∨ ∃ img, t.album.images[1]? = some img) →
      (makeSVG data theme bg bd (.ok rp) idx f anims).statusOf = some "Vibing to:" ∧
      (makeSVG data theme bg bd (.ok rp) idx f anims).songURIOf =
        some t.external_urls.spotify) := by
  constructor
  · intro entry a0 hdata hentry ha himg
    rw [makeSVG_empty_eval hdata hentry]
    rcases himg with hemp | ⟨img, himg⟩
    · rw [renderItem_eq_noImages ha hemp]
      exact ⟨rfl, rfl, rfl, rfl⟩
    · rw [renderItem_eq_images ha himg]
      exact ⟨rfl, rfl, rfl, rfl⟩
  · intro t a0 hdata ha himg
    subst hdata
    rw [makeSVG_track_eval]
    rcases himg with hemp | ⟨img, himg⟩
    · rw [renderItem_eq_noImages ha hemp]
      exact ⟨rfl, rfl⟩
    · rw [renderItem_eq_images ha himg]
      exact ⟨rfl, rfl⟩

/-- Witness for C3 amended: an empty snapshot with a single recent item
renders that item's track labelled `"Was playing:"`, and a non-empty
snapshot renders the current track labelled `"Vibing to:"`. -/
theorem C3_render_selection_witness :
    (makeSVG .emptyDict none none none (.ok (.dict (some [{ track := sampleTrack2 }]))) 0
      noFetch constAnims).songURIOf = some "song2-link" ∧
    (makeSVG (.dict (.track sampleTrack)) none none none (.ok .emptyDict) 0
      noFetch constAnims).statusOf = some "Vibing to:" := by
  constructor
  · exact ((C3_render_selection .emptyDict none none none
      (.dict (some [{ track := sampleTrack2 }])) 0 noFetch constAnims).1
      { track := sampleTrack2 } sampleArtist rfl rfl rfl
      (Or.inr ⟨sampleImage, rfl⟩)).2.2.1
  · exact ((C3_render_selection (.dict (.track sampleTrack)) none none none .emptyDict 0
      noFetch constAnims).2 sampleTrack sampleArtist rfl rfl (Or.inl rfl)).1

/-- **C4.** When the snapshot is empty and the recent-tracks fallback
returns no items (empty dict, missing `items` key, or empty list),
`makeSVG` returns the rendered error template with the
`"No recent songs found"` message — a value, not an exception. -/
theorem C4_error_fragment_when_no_data (data : Snapshot) (theme bg bd : Option String)
    (rp : RecentPlays) (idx : Nat) (f : String → Option String) (anims : Nat → Nat)
    (hdata : svgEmptyCheck data = true) (hrp : recentEmptyCheck rp = true) :
    makeSVG data theme bg bd (.ok rp) idx f anims =
      .errorTemplate "No recent songs found" := by
  simp [makeSVG, makeSVGBody, hdata, hrp]

/-- Witness for C4: the empty snapshot with an empty recent response
produces the error template. -/
theorem C4_error_fragment_when_no_data_witness :
    makeSVG .emptyDict none none none (.ok .emptyDict) 0 noFetch constAnims =
      .errorTemplate "No recent songs found" :=
  C4_error_fragment_when_no_data .emptyDict none none none .emptyDict 0 noFetch constAnims
    rfl rfl

/-- **C5.** `/now-playing` responds 404 — and then always with the
`"No recent songs found"` error body — exactly when the current-track
result is empty or has no item and the recent list is absent or empty;
`/recent` responds 404 with the same error body exactly when the recent
list is absent or empty. -/
theorem C5_json_404_iff (data : Snapshot) (recent rp : RecentPlays) (idx : Nat) :
    ((now_playing_json (.ok data) (.ok recent) idx).status = 404 ↔
      npEmptyCheck data = true ∧ recentEmptyCheck recent = true) ∧
    ((now_playing_json (.ok data) (.ok recent) idx).status = 404 →
      now_playing_json (.ok data) (.ok recent) idx =
        .errorJson "No recent songs found" 404) ∧
    ((recently_played_json (.ok rp)).status = 404 ↔ recentEmptyCheck rp = true) ∧
    ((recently_played_json (.ok rp)).status = 404 →
      recently_played_json (.ok rp) = .errorJson "No recent songs found" 404) := by
  have hrec : (recently_played_json (.ok rp)).status = 404 ↔
      recentEmptyCheck rp = true := by
    by_cases h : recentEmptyCheck rp
    · simp [recently_played_json, h, RecentResponse.status]
    · simp [recently_played_json, h, RecentResponse.status]
  have hnp : (now_playing_json (.ok data) (.ok recent) idx).status = 404 ↔
      npEmptyCheck data = true ∧ recentEmptyCheck recent = true := by
    by_cases h1 : npEmptyCheck data
    · by_cases h2 : recentEmptyCheck recent
      · simp [now_playing_json, h1, h2, NPResponse.status]
      · cases hg : (recentItems recent)[idx]? with
        | none => simp [now_playing_json, h1, h2, hg, NPResponse.status]
        | some entry => simp [now_playing_json, h1, h2, hg, NPResponse.status]
    · simp [now_playing_json, h1, NPResponse.status]
  refine ⟨hnp, ?_, hrec, ?_⟩
  · intro h404
    obtain ⟨h1, h2⟩ := hnp.mp h404
    simp [now_playing_json, h1, h2]
  · intro h404
    have h := hrec.mp h404
    simp [recently_played_json, h]

/-- Witness for C5: an empty snapshot with an empty recent list gives
404 on `/now-playing`, and an empty recent list gives 404 on
`/recent`. -/
theorem C5_json_404_iff_witness :
    (now_playing_json (.ok .emptyDict) (.ok .emptyDict) 0).status = 404 ∧
    (recently_played_json (.ok .emptyDict)).status = 404 :=
  ⟨((C5_json_404_iff .emptyDict .emptyDict .emptyDict 0).1).mpr ⟨rfl, rfl⟩,
   ((C5_json_404_iff .emptyDict .emptyDict .emptyDict 0).2.2.1).mpr rfl⟩

/-- **C6.** When the token refresh succeeds, the current-track endpoint
reports idle (`204`, so `nowPlaying` returns the empty dict) and the
recent list has `N > 0` items, `/now-playing` responds 200 with
`is_playing: false` and the track object of the entry at the drawn
index — for every possible draw `idx < N`, and that track is a member
of the recent list's tracks. -/
theorem C6_idle_fallback_response (now : Nat) (remoteTok : RefreshOutcome)
    (cache : TokenCache) (tok : String) (items : List RecentItem) (idx : Nat)
    (htok : (refreshToken now remoteTok cache).1 = .ok tok)
    (hidx : idx < items.length) :
    (nowPlaying now remoteTok cache .noContent).1 = .ok .emptyDict ∧
    now_playing_json (nowPlaying now remoteTok cache .noContent).1
      (.ok (.dict (some items))) idx = .okRecent false items[idx].track ∧
    (now_playing_json (nowPlaying now remoteTok cache .noContent).1
      (.ok (.dict (some items))) idx).status = 200 ∧
    items[idx].track ∈ items.map RecentItem.track := by
  have hnp : (nowPlaying now remoteTok cache .noContent).1 = .ok .emptyDict := by
    rcases hrt : refreshToken now remoteTok cache with ⟨res, cache', n⟩
    rw [hrt] at htok
    simp only at htok
    subst htok
    simp [nowPlaying, hrt]
  have hempty : recentEmptyCheck (.dict (some items)) = false := by
    cases items with
    | nil => simp at hidx
    | cons a as => simp [recentEmptyCheck]
  have hjson : now_playing_json (nowPlaying now remoteTok cache .noContent).1
      (.ok (.dict (some items))) idx = .okRecent false items[idx].track := by
    rw [hnp]
    simp [now_playing_json, npEmptyCheck, hempty, recentItems, List.getElem?_eq_getElem hidx]
  refine ⟨hnp, hjson, by rw [hjson]; rfl, ?_⟩
  exact List.mem_map.mpr ⟨items[idx], List.getElem_mem hidx, rfl⟩

/-- Witness for C6: idle track endpoint and three recent items, with
the draw landing on index 1, yields a 200 response carrying the second
item's track. -/
theorem C6_idle_fallback_response_witness :
    (nowPlaying 0 (.okToken "t") initialTokenCache .noContent).1 = .ok .emptyDict ∧
    now_playing_json (nowPlaying 0 (.okToken "t") initialTokenCache .noContent).1
      (.ok (.dict (some [{ track := sampleTrack }, { track := sampleTrack2 },
        { track := sampleTrack }]))) 1 = .okRecent false sampleTrack2 ∧
    (now_playing_json (nowPlaying 0 (.okToken "t") initialTokenCache .noContent).1
      (.ok (.dict (some [{ track := sampleTrack }, { track := sampleTrack2 },
        { track := sampleTrack }]))) 1).status = 200 ∧
    sampleTrack2 ∈ [{ track := sampleTrack }, { track := sampleTrack2 },
      { track := sampleTrack }].map RecentItem.track := by
  exact C6_idle_fallback_response 0 (.okToken "t") initialTokenCache "t"
    [{ track := sampleTrack }, { track := sampleTrack2 }, { track := sampleTrack }] 1
    rfl (by decide)

/-- **C7 counterexample.** The claim says every supplied
`background_color` value takes precedence over the theme's background,
but the source's `if not background_color` treats the empty string as
absent: supplying `background_color = ""` renders the default theme's
background `"191414"`, not the supplied value. -/
theorem C7_override_counterexample :
    (makeSVG (.dict (.track sampleTrack)) none (some "") none (.ok .emptyDict) 0 noFetch
      constAnims).bgOf = some "191414" ∧
    some ("191414" : String) ≠ some ("" : String) :=
  ⟨rfl, by decide⟩

/-- **C7 amended.** Whenever a card is rendered: a supplied *non-empty*
`background_color` is used as the card's background in place of the
theme's background — independently of whether `border_color` is
supplied; a supplied *non-empty* `border_color` is used as the card's
border — independently of whether `background_color` is supplied; a
`None` or empty-string `background_color` falls back to the theme's
background; and a `None` or empty-string `border_color` falls back to
the resolved background color. For every theme and every non-empty
override value. -/
theorem C7_color_overrides (data : Snapshot) (theme : Option String)
    (bg bd : Option String) (rf : Except PyExc RecentPlays) (idx : Nat)
    (f : String → Option String) (anims : Nat → Nat)
    (hcard : (makeSVG data theme bg bd rf idx f anims).isCard = true) :
    (∀ s, bg = some s → s ≠ "" →
      (makeSVG data theme bg bd rf idx f anims).bgOf = some s) ∧
    (∀ t, bd = some t → t ≠ "" →
      (makeSVG data theme bg bd rf idx f anims).bdOf = some t) ∧
    (strFalsy bg = true →
      (makeSVG data theme bg bd rf idx f anims).bgOf =
        some (themesGet theme).background) ∧
    (strFalsy bd = true →
      (makeSVG data theme bg bd rf idx f anims).bdOf =
        (makeSVG data theme bg bd rf idx f anims).bgOf) := by
  obtain ⟨d, hd⟩ := isCard_exists hcard
  obtain ⟨c2, st, item, hri⟩ := makeSVG_card_inv hd
  obtain ⟨-, hbgd, hbdd, -⟩ := renderItem_card_fields hri
  refine ⟨?_, ?_, ?_, ?_⟩
  · intro s hbg hs
    subst hbg
    have hsf : strFalsy (some s) = false := by simp [strFalsy, hs]
    rw [hd]
    simp [SVGResult.bgOf, hbgd, hsf]
  · intro t hbd ht
    subst hbd
    have htf : strFalsy (some t) = false := by simp [strFalsy, ht]
    rw [hd]
    simp [SVGResult.bdOf, hbdd, htf]
  · intro hsf
    rw [hd]
    simp [SVGResult.bgOf, hbgd, hsf]
  · intro htf
    rw [hd]
    simp only [SVGResult.bgOf, SVGResult.bdOf, Option.some.injEq]
    rw [hbdd, htf, hbgd]
    simp

/-- Witness for C7 amended: supplying only `background_color = "ABC"`
renders background `"ABC"` with the border falling back to it;
supplying only `border_color = "DEF"` renders border `"DEF"` with the
background falling back to the default theme's. -/
theorem C7_color_overrides_witness :
    (makeSVG (.dict (.track sampleTrack)) none (some "ABC") none (.ok .emptyDict) 0
      noFetch constAnims).bgOf = some "ABC" ∧
    (makeSVG (.dict (.track sampleTrack)) none (some "ABC") none (.ok .emptyDict) 0
      noFetch constAnims).bdOf =
      (makeSVG (.dict (.track sampleTrack)) none (some "ABC") none (.ok .emptyDict) 0
        noFetch constAnims).bgOf ∧
    (makeSVG (.dict (.track sampleTrack)) none none (some "DEF") (.ok .emptyDict) 0
      noFetch constAnims).bdOf = some "DEF" ∧
    (makeSVG (.dict (.track sampleTrack)) none none (some "DEF") (.ok .emptyDict) 0
      noFetch constAnims).bgOf = some (themesGet none).background := by
  refine ⟨?_, ?_, ?_, ?_⟩
  · exact (C7_color_overrides (.dict (.track sampleTrack)) none (some "ABC") none
      (.ok .emptyDict) 0 noFetch constAnims rfl).1 "ABC" rfl (by decide)
  · exact (C7_color_overrides (.dict (.track sampleTrack)) none (some "ABC") none
      (.ok .emptyDict) 0 noFetch constAnims rfl).2.2.2 rfl
  · exact (C7_color_overrides (.dict (.track sampleTrack)) none none (some "DEF")
      (.ok .emptyDict) 0 noFetch constAnims rfl).2.1 "DEF" rfl (by decide)
  · exact (C7_color_overrides (.dict (.track sampleTrack)) none none (some "DEF")
      (.ok .emptyDict) 0 noFetch constAnims rfl).2.2.1 rfl

/-- **C8.** Whenever `makeSVG` renders a card, the `artistName` and
`songName` values passed into the markup are the selected track's
artist name and track name with every ampersand replaced by the
sequence `&amp;` (and the `songURI`/`artistURI` fields identify that
same track and artist). -/
theorem C8_ampersands_escaped (data : Snapshot) (theme bg bd : Option String)
    (rf : Except PyExc RecentPlays) (idx : Nat) (f : String → Option String)
    (anims : Nat → Nat)
    (hcard : (makeSVG data theme bg bd rf idx f anims).isCard = true) :
    ∃ (item : Track) (a0 : Artist), item.artists[0]? = some a0 ∧
      (makeSVG data theme bg bd rf idx f anims).artistNameOf =
        some (escapeAmpSpec a0.name) ∧
      (makeSVG data theme bg bd rf idx f anims).songNameOf =
        some (escapeAmpSpec item.name) ∧
      (makeSVG data theme bg bd rf idx f anims).songURIOf =
        some item.external_urls.spotify ∧
      (makeSVG data theme bg bd rf idx f anims).artistURIOf =
        some a0.external_urls.spotify := by
  obtain ⟨d, hd⟩ := isCard_exists hcard
  obtain ⟨c2, st, item, hri⟩ := makeSVG_card_inv hd
  obtain ⟨-, -, -, hsong, hsuri, a0, ha, hart, hauri⟩ := renderItem_card_fields hri
  refine ⟨item, a0, ha, ?_, ?_, ?_, ?_⟩ <;> rw [hd]
  · simp only [SVGResult.artistNameOf, hart, Option.some.injEq]
    exact pyReplace_amp_eq_escapeAmpSpec a0.name
  · simp only [SVGResult.songNameOf, hsong, Option.some.injEq]
    exact pyReplace_amp_eq_escapeAmpSpec item.name
  · simp [SVGResult.songURIOf, hsuri]
  · simp [SVGResult.artistURIOf, hauri]

/-- Witness for C8: a concrete render of a track whose artist and song
names contain ampersands produces a card whose name fields are the
escaped names. -/
theorem C8_ampersands_escaped_witness :
    ∃ (item : Track) (a0 : Artist), item.artists[0]? = some a0 ∧
      (makeSVG (.dict (.track sampleTrack)) none none none (.ok .emptyDict) 0 noFetch
        constAnims).artistNameOf = some (escapeAmpSpec a0.name) ∧
      (makeSVG (.dict (.track sampleTrack)) none none none (.ok .emptyDict) 0 noFetch
        constAnims).songNameOf = some (escapeAmpSpec item.name) ∧
      (makeSVG (.dict (.track sampleTrack)) none none none (.ok .emptyDict) 0 noFetch
        constAnims).songURIOf = some item.external_urls.spotify ∧
      (makeSVG (.dict (.track sampleTrack)) none none none (.ok .emptyDict) 0 noFetch
        constAnims).artistURIOf = some a0.external_urls.spotify :=
  C8_ampersands_escaped (.dict (.track sampleTrack)) none none none (.ok .emptyDict) 0
    noFetch constAnims rfl

/-- **C9.** For every track rendered by `makeSVG` — the current track
or a recent-tracks fallback selection — an empty album-art list makes
the card use the fixed placeholder image, and a failed download of an
available art URL also makes the card use the placeholder; in both
cases a card is rendered, not the error fragment. -/
theorem C9_placeholder_image (data : Snapshot) (theme bg bd : Option String)
    (rf : Except PyExc RecentPlays) (idx : Nat) (f : String → Option String)
    (anims : Nat → Nat) (t : Track) (a0 : Artist)
    (hsel : data = .dict (.track t) ∨
      (svgEmptyCheck data = true ∧ ∃ rp entry, rf = .ok rp ∧
        (recentItems rp)[idx]? = some entry ∧ entry.track = t))
    (ha : t.artists[0]? = some a0) :
    (t.album.images = [] →
      (makeSVG data theme bg bd rf idx f anims).isCard = true ∧
      (makeSVG data theme bg bd rf idx f anims).imageOf = some PLACEHOLDER_IMAGE) ∧
    (∀ img, t.album.images[1]? = some img → f img.url = none →
      (makeSVG data theme bg bd rf idx f anims).isCard = true ∧
      (makeSVG data theme bg bd rf idx f anims).imageOf = some PLACEHOLDER_IMAGE) := by
  rcases hsel with hdata | ⟨hdata, rp, entry, hrf, hentry, htr⟩
  · subst hdata
    constructor
    · intro hemp
      rw [makeSVG_track_eval, renderItem_eq_noImages ha hemp]
      exact ⟨rfl, rfl⟩
    · intro img himg hf
      rw [makeSVG_track_eval, renderItem_eq_images ha himg]
      refine ⟨rfl, ?_⟩
      simp [SVGResult.imageOf, loadImageB64, hf]
  · subst hrf
    constructor
    · intro hemp
      rw [makeSVG_empty_eval hdata hentry, htr, renderItem_eq_noImages ha hemp]
      exact ⟨rfl, rfl⟩
    · intro img himg hf
      rw [makeSVG_empty_eval hdata hentry, htr, renderItem_eq_images ha himg]
      refine ⟨rfl, ?_⟩
      simp [SVGResult.imageOf, loadImageB64, hf]

/-- Witness for C9: a current track without album art renders a card
with the placeholder, and a current track whose art download fails also
renders a card with the placeholder. -/
theorem C9_placeholder_image_witness :
    ((makeSVG (.dict (.track sampleTrack)) none none none (.ok .emptyDict) 0 noFetch
      constAnims).isCard = true ∧
     (makeSVG (.dict (.track sampleTrack)) none none none (.ok .emptyDict) 0 noFetch
      constAnims).imageOf = some PLACEHOLDER_IMAGE) ∧
    ((makeSVG (.dict (.track sampleTrack2)) none none none (.ok .emptyDict) 0 noFetch
      constAnims).isCard = true ∧
     (makeSVG (.dict (.track sampleTrack2)) none none none (.ok .emptyDict) 0 noFetch
      constAnims).imageOf = some PLACEHOLDER_IMAGE) := by
  constructor
  · exact (C9_placeholder_image (.dict (.track sampleTrack)) none none none (.ok .emptyDict)
      0 noFetch constAnims sampleTrack sampleArtist (Or.inl rfl) rfl).1 rfl
  · exact (C9_placeholder_image (.dict (.track sampleTrack2)) none none none (.ok .emptyDict)
      0 noFetch constAnims sampleTrack2 sampleArtist (Or.inl rfl) rfl).2 sampleImage rfl rfl

end Spotify
